import Mathlib

/-!
Shallow embedding of the Elenora-Group/Logger TypeScript source
(src/index.ts) and verification of the spec claims about it.

Modelling conventions:
- JavaScript `String.prototype.replace(pat, rep)` with a string pattern
  replaces only the first occurrence of `pat`; this is `jsReplace` below.
  (The `$`-pattern handling in the replacement string is not exercised by
  any claim and is not modelled.)
- JS numbers are modelled as `Int` (all values the claims touch are
  integers); `Date.now()` and `stat.birthtimeMs` are `Int` milliseconds.
- External effects are an explicit environment `Env`:
  `DateTime.now().toFormat` (luxon) is `Env.formatTime`,
  `Date.toLocaleDateString("en-CA")` is `Env.enCADate`,
  `StackTrace.getSync()` is `Env.traceLog` at the call site in `log` and
  `Env.traceWrite` at the call site in `writeLine`.
- The file system visible to the logger is `FileSys`: the output
  directory, `latest.log` (contents as a list of lines plus its birth
  time) and the archive of rotated files. Fault injection flags `Faults`
  decide which fs syscalls throw, mirroring the try/catch structure of
  `writeLine`.
-/

/-- Check that `pat` occurs at the head of `s` (character lists). -/
def leadsWith : List Char → List Char → Bool
  | [], _ => true
  | _ :: _, [] => false
  | p :: ps, c :: cs => p == c && leadsWith ps cs

/-- Replace the first occurrence of `pat` by `rep` in `s`, as JS
`String.prototype.replace` with a string pattern does. -/
def replaceList (pat rep : List Char) : List Char → List Char
  | [] => if pat.length == 0 then rep else []
  | c :: cs =>
    if leadsWith pat (c :: cs) then rep ++ (c :: cs).drop pat.length
    else c :: replaceList pat rep cs

/-- JS `s.replace(pat, rep)` (first occurrence only). -/
def jsReplace (s pat rep : String) : String :=
  ⟨replaceList pat.data rep.data s.data⟩

/-- `enum LEVEL { debug = 0, info, success, warning, error, notice }`. -/
inductive LEVEL where
  | debug
  | info
  | success
  | warning
  | error
  | notice
deriving DecidableEq, Repr

/-- The numeric value of the enum member (debug = 0 .. notice = 5). -/
def LEVEL.rank : LEVEL → Nat
  | .debug => 0
  | .info => 1
  | .success => 2
  | .warning => 3
  | .error => 4
  | .notice => 5

/-- `LEVEL_TAG`: fixed-width plain tags. -/
def LEVEL_TAG : LEVEL → String
  | .debug => " debug "
  | .info => " info  "
  | .success => "success"
  | .warning => "warning"
  | .error => " error "
  | .notice => "notice "

/-- `LEVEL_COLOR`: the chalk-colorized tags; chalk wraps the tag in ANSI
escape sequences (open code, text, close code). -/
def LEVEL_COLOR : LEVEL → String
  | .debug => "\x1b[90m debug \x1b[39m"
  | .info => "\x1b[34m info  \x1b[39m"
  | .success => "\x1b[92msuccess\x1b[39m"
  | .warning => "\x1b[93mwarning\x1b[39m"
  | .error => "\x1b[91m error \x1b[39m"
  | .notice => "\x1b[101mnotice \x1b[49m"

/-- A duck-typed JS value passed as a variadic logging argument. -/
inductive JSValue where
  | str (s : String)
  | num (n : Int)
  | boolean (b : Bool)
  | obj (fields : List (String × JSValue))

/-- `typeof arg === "object"`. -/
def typeofIsObject : JSValue → Bool
  | .obj _ => true
  | _ => false

/-- Node `util.inspect`: human-readable structural key/value rendering. -/
def inspect : JSValue → String
  | .str s => "\x27" ++ s ++ "\x27"
  | .num n => toString n
  | .boolean b => cond b "true" "false"
  | .obj [] => "\x7b\x7d"
  | .obj (f :: fs) =>
    "\x7b " ++ String.intercalate ", "
      ((f :: fs).attach.map (fun p => p.1.1 ++ ": " ++ inspect p.1.2)) ++ " \x7d"
decreasing_by
  simp_wf
  rcases p with ⟨⟨a, b⟩, hmem⟩
  have hp := List.sizeOf_lt_of_mem hmem
  simp at hp ⊢
  omega

/-- Stringification performed by `Array.prototype.join` on a non-object
element (objects are already strings by the time they are joined). -/
def jsToString : JSValue → String
  | .str s => s
  | .num n => toString n
  | .boolean b => cond b "true" "false"
  | .obj _ => "[object Object]"

/-- One stacktrace-js frame (the four accessors the logger reads). -/
structure StackFrame where
  fileName : String
  lineNumber : Int
  functionName : String
  columnNumber : Int
deriving DecidableEq, Repr

/-- The external world a logging call observes. -/
structure Env where
  formatTime : String → String
  nowMs : Int
  traceLog : List StackFrame
  traceWrite : List StackFrame
  enCADate : Int → String

/-- Which file-system syscalls throw during this call. -/
structure Faults where
  mkdirFails : Bool
  statFails : Bool
  renameFails : Bool
  appendFails : Bool
  writeFails : Bool
deriving DecidableEq, Repr

/-- The fault-free environment: every syscall succeeds. -/
def noFaults : Faults := ⟨false, false, false, false, false⟩

/-- `latest.log`: its birth time and its lines (each sans newline). -/
structure FileData where
  birthMs : Int
  lines : List String
deriving DecidableEq, Repr

/-- The directory the logger writes into. -/
structure FileSys where
  dirExists : Bool
  latest : Option FileData
  archived : List (String × List String)
deriving DecidableEq, Repr

/-- An uncaught file-system error escaping the logging call. -/
inductive IOErr where
  | mkdirErr
  | writeErr
deriving DecidableEq, Repr

/-- Where a console line goes: `console.log` / `console.warn` /
`console.error`. -/
inductive ConsoleSink where
  | outStream
  | warnStream
  | errStream
deriving DecidableEq, Repr

/-- The `if (trace.length >= 3) { message.replace(...) ... }` block shared
by `log` and `writeLine`: substitute the four location tokens from the
frame at index 2, or leave the message untouched when fewer than 3 frames
are available. -/
def applyTrace : List StackFrame → String → String
  | _ :: _ :: f2 :: _, message =>
    jsReplace (jsReplace (jsReplace (jsReplace message
      "{fileName}" f2.fileName)
      "{lineNumber}" (toString f2.lineNumber))
      "{functionName}" f2.functionName)
      "{columnNumber}" (toString f2.columnNumber)
  | _, message => message

/-- The Logger instance: its five configuration fields with their
declared defaults applied by `createInstance`. -/
structure Logger where
  logPath : String
  doWrite : Bool
  _level : LEVEL
  _timeFormat : String
  _format : String
deriving DecidableEq, Repr

/-- `path.join(a, b)`. -/
def pathJoin (a b : String) : String := a ++ "/" ++ b

/-- `Logger.createInstance()`; `process.cwd()` is passed explicitly. -/
def Logger.createInstance (cwd : String) : Logger :=
  { logPath := pathJoin cwd "logs"
    doWrite := true
    _level := LEVEL.info
    _timeFormat := "D TT"
    _format := "{time} [{level}] {content}" }

/-- `get path()`. -/
def Logger.path (l : Logger) : String := l.logPath

/-- `set path(value)`. -/
def Logger.setPath (l : Logger) (value : String) : Logger :=
  { l with logPath := value }

/-- `get writeFile()`. -/
def Logger.writeFile (l : Logger) : Bool := l.doWrite

/-- `set writeFile(value)`. -/
def Logger.setWriteFile (l : Logger) (value : Bool) : Logger :=
  { l with doWrite := value }

/-- `get level()`. -/
def Logger.level (l : Logger) : LEVEL := l._level

/-- `set level(value)`. -/
def Logger.setLevel (l : Logger) (value : LEVEL) : Logger :=
  { l with _level := value }

/-- `get timeFormat()`. -/
def Logger.timeFormat (l : Logger) : String := l._timeFormat

/-- `set timeFormat(value)`. -/
def Logger.setTimeFormat (l : Logger) (value : String) : Logger :=
  { l with _timeFormat := value }

/-- `get logFormat()`. -/
def Logger.logFormat (l : Logger) : String := l._format

/-- `set logFormat(value)`. -/
def Logger.setLogFormat (l : Logger) (value : String) : Logger :=
  { l with _format := value }

/-- `checkLevel(level)`: `level >= this._level` on the enum values. -/
def Logger.checkLevel (l : Logger) (level : LEVEL) : Bool :=
  decide (l._level.rank ≤ level.rank)

/-- `getTime()`: `DateTime.now().toFormat(this._timeFormat)`. -/
def Logger.getTime (env : Env) (l : Logger) : String :=
  env.formatTime l._timeFormat

/-- The `catch` branch of `writeLine`: `fs.writeFileSync(output, message)`.
`writeFileSync` truncates an existing `latest.log` (keeping its birth
time) or creates a fresh one (born now); a failure here is uncaught and
escapes the call. -/
def catchWrite (env : Env) (fl : Faults) (fs : FileSys) (message : String) :
    FileSys × Option IOErr :=
  if fl.writeFails then (fs, some IOErr.writeErr)
  else
    match fs.latest with
    | some fd => ({ fs with latest := some ⟨fd.birthMs, [message]⟩ }, none)
    | none => ({ fs with latest := some ⟨env.nowMs, [message]⟩ }, none)

/-- `writeLine(level, line)`: ensure the directory, format the file
variant of the line (plain tag), then the try/catch rotate-and-append:
stat `latest.log`; when its age is at least 8.64e7 ms rename it to
`output-<en-CA date of birth>.log`; append the line (creating the file
when absent).  Any throw inside the try lands in `catchWrite`. -/
def Logger.writeLine (env : Env) (fl : Faults) (l : Logger) (level : LEVEL)
    (line : String) (fs : FileSys) : FileSys × Option IOErr :=
  if !l.doWrite then (fs, none)
  else if !fs.dirExists && fl.mkdirFails then (fs, some IOErr.mkdirErr)
  else
    let fs1 : FileSys := { fs with dirExists := true }
    let message := applyTrace env.traceWrite
      (jsReplace (jsReplace (jsReplace l._format
        "{time}" (Logger.getTime env l))
        "{level}" (LEVEL_TAG level))
        "{content}" line)
    match fs1.latest, fl.statFails with
    | some fd, false =>
      if 86400000 ≤ env.nowMs - fd.birthMs then
        if fl.renameFails then catchWrite env fl fs1 message
        else
          let fs2 : FileSys := { fs1 with
            latest := none
            archived := ("output-" ++ env.enCADate fd.birthMs ++ ".log",
              fd.lines) :: fs1.archived }
          if fl.appendFails then catchWrite env fl fs2 message
          else ({ fs2 with latest := some ⟨env.nowMs, [message]⟩ }, none)
      else
        if fl.appendFails then catchWrite env fl fs1 message
        else ({ fs1 with latest := some ⟨fd.birthMs, fd.lines ++ [message]⟩ },
          none)
    | _, _ => catchWrite env fl fs1 message

/-- What one call to `log` produced: the instance afterwards, the file
system afterwards, the console lines emitted, and the error that escaped
(if any). -/
structure LogResult where
  logger : Logger
  fs : FileSys
  console : List (ConsoleSink × String)
  err : Option IOErr
deriving DecidableEq, Repr

/-- The `switch (level)` console dispatch at the end of `log`. -/
def sinkFor : LEVEL → ConsoleSink
  | .error => ConsoleSink.errStream
  | .warning => ConsoleSink.warnStream
  | _ => ConsoleSink.outStream

/-- The `for (const arg of args)` loop building `parsed`: objects are
replaced by their `inspect` rendering, other values pushed raw. -/
def parseArgs : List JSValue → List JSValue
  | [] => []
  | arg :: rest =>
    (if typeofIsObject arg then JSValue.str (inspect arg) else arg)
      :: parseArgs rest

/-- `parsed.join(" ")`. -/
def joinSp (parsed : List JSValue) : String :=
  String.intercalate " " (parsed.map jsToString)

/-- `log(level, ...args)`: filter by level, render the content line,
write the file variant via `writeLine` (an escaping error aborts the
call before any console output), then format the console variant
(colorized tag) and dispatch it. -/
def Logger.log (env : Env) (fl : Faults) (l : Logger) (level : LEVEL)
    (args : List JSValue) (fs : FileSys) : LogResult :=
  if !(l.checkLevel level) then ⟨l, fs, [], none⟩
  else
    let line := joinSp (parseArgs args)
    let w := Logger.writeLine env fl l level line fs
    match w.2 with
    | some e => ⟨l, w.1, [], some e⟩
    | none =>
      let message := applyTrace env.traceLog
        (jsReplace (jsReplace (jsReplace l._format
          "{time}" (Logger.getTime env l))
          "{level}" (LEVEL_COLOR level))
          "{content}" line)
      ⟨l, w.1, [(sinkFor level, message)], none⟩

/-- `debug(...args)`. -/
def Logger.debug (env : Env) (fl : Faults) (l : Logger) (args : List JSValue)
    (fs : FileSys) : LogResult :=
  Logger.log env fl l LEVEL.debug args fs

/-- `info(...args)`. -/
def Logger.info (env : Env) (fl : Faults) (l : Logger) (args : List JSValue)
    (fs : FileSys) : LogResult :=
  Logger.log env fl l LEVEL.info args fs

/-- `success(...args)`. -/
def Logger.success (env : Env) (fl : Faults) (l : Logger) (args : List JSValue)
    (fs : FileSys) : LogResult :=
  Logger.log env fl l LEVEL.success args fs

/-- `warning(...args)`. -/
def Logger.warning (env : Env) (fl : Faults) (l : Logger) (args : List JSValue)
    (fs : FileSys) : LogResult :=
  Logger.log env fl l LEVEL.warning args fs

/-- `error(...args)`. -/
def Logger.error (env : Env) (fl : Faults) (l : Logger) (args : List JSValue)
    (fs : FileSys) : LogResult :=
  Logger.log env fl l LEVEL.error args fs

/-- `notice(...args)`. -/
def Logger.notice (env : Env) (fl : Faults) (l : Logger) (args : List JSValue)
    (fs : FileSys) : LogResult :=
  Logger.log env fl l LEVEL.notice args fs

/-- The per-level operation belonging to a level, for quantifying over
"the L1 operation". -/
def levelOp : LEVEL →
    Env → Faults → Logger → List JSValue → FileSys → LogResult
  | .debug => Logger.debug
  | .info => Logger.info
  | .success => Logger.success
  | .warning => Logger.warning
  | .error => Logger.error
  | .notice => Logger.notice

/-- Total number of log lines present anywhere in the directory
(`latest.log` plus every archived file). -/
def FileSys.totalLines (fs : FileSys) : Nat :=
  (match fs.latest with
   | some fd => fd.lines.length
   | none => 0)
  + (fs.archived.map (fun p => p.2.length)).sum

/-- Modelled from the spec (section 9): a correct SINGLE-PASS template
substitution, scanning the format string once from left to right and
replacing each token by its value without rescanning inserted text.
Fuel-indexed so it evaluates in the kernel; fuel one per character
consumed suffices. -/
def singlePassAux (σ : List (List Char × List Char)) :
    Nat → List Char → List Char
  | 0, s => s
  | _ + 1, [] => []
  | fuel + 1, c :: cs =>
    match σ.find? (fun p => decide (p.1.length ≠ 0) && leadsWith p.1 (c :: cs)) with
    | some p => p.2 ++ singlePassAux σ fuel ((c :: cs).drop p.1.length)
    | none => c :: singlePassAux σ fuel cs

/-- Modelled from the spec (section 9): single-pass substitution of a
token table over a format string. -/
def specSinglePass (σ : List (String × String)) (s : String) : String :=
  ⟨singlePassAux (σ.map fun p => (p.1.data, p.2.data)) s.data.length s.data⟩

/-- Per-argument rendering as the spec words it: structural inspection
for non-primitive values, the natural string form for primitives. -/
def renderArgSpec : JSValue → String
  | .obj fields => inspect (.obj fields)
  | a => jsToString a

/-- A concrete benign environment used by the witnesses: time renders as
"T0", the clock reads two full days past the epoch, both stack captures
are empty, en-CA dates render as the epoch date. -/
def wEnv : Env :=
  { formatTime := fun _ => "T0"
    nowMs := 172800000
    traceLog := []
    traceWrite := []
    enCADate := fun _ => "1970-01-01" }

theorem levelOp_eq (level : LEVEL) (env : Env) (fl : Faults) (l : Logger)
    (args : List JSValue) (fs : FileSys) :
    levelOp level env fl l args fs = Logger.log env fl l level args fs := by
  cases level <;> rfl

theorem writeLine_noFaults_err (env : Env) (l : Logger) (level : LEVEL)
    (line : String) (fs : FileSys) :
    (Logger.writeLine env noFaults l level line fs).2 = none := by
  obtain ⟨d, lat, arch⟩ := fs
  unfold Logger.writeLine
  cases hW : l.doWrite
  · simp
  · cases lat with
    | none => simp [noFaults, catchWrite]
    | some fd =>
      simp only [noFaults, Bool.and_false, Bool.not_true, Bool.false_eq_true,
        if_false, Bool.not_false, if_true]
      split <;> simp [catchWrite]

theorem log_noFaults_console (env : Env) (lg : Logger) (level : LEVEL)
    (args : List JSValue) (fs : FileSys) (hlvl : lg.checkLevel level = true) :
    (Logger.log env noFaults lg level args fs).console
      = [(sinkFor level,
          applyTrace env.traceLog
            (jsReplace (jsReplace (jsReplace lg._format
              "{time}" (Logger.getTime env lg))
              "{level}" (LEVEL_COLOR level))
              "{content}" (joinSp (parseArgs args))))] := by
  unfold Logger.log
  rw [hlvl]
  simp only [Bool.not_true, Bool.false_eq_true, if_false]
  rw [writeLine_noFaults_err]

theorem log_noFaults_fs (env : Env) (lg : Logger) (level : LEVEL)
    (args : List JSValue) (fs : FileSys) (hlvl : lg.checkLevel level = true) :
    (Logger.log env noFaults lg level args fs).fs
      = (Logger.writeLine env noFaults lg level (joinSp (parseArgs args)) fs).1
    := by
  unfold Logger.log
  rw [hlvl]
  simp only [Bool.not_true, Bool.false_eq_true, if_false]
  rw [writeLine_noFaults_err]

theorem parseArgs_map (args : List JSValue) :
    (parseArgs args).map jsToString = args.map renderArgSpec := by
  induction args with
  | nil => rfl
  | cons a rest ih =>
    cases a <;> simp [parseArgs, typeofIsObject, jsToString, renderArgSpec, ih]

/-- C9: for each of the five configuration properties (directory,
write-to-file flag, minimum level, time format, line format), setting the
property and reading it back yields the set value; and a freshly created
instance reads back the documented defaults: directory `<cwd>/logs`,
minimum level `info`, write-to-file `true`. -/
theorem c9_config_roundtrip_and_defaults :
    (∀ (l : Logger) (v : String), (l.setPath v).path = v)
    ∧ (∀ (l : Logger) (v : Bool), (l.setWriteFile v).writeFile = v)
    ∧ (∀ (l : Logger) (v : LEVEL), (l.setLevel v).level = v)
    ∧ (∀ (l : Logger) (v : String), (l.setTimeFormat v).timeFormat = v)
    ∧ (∀ (l : Logger) (v : String), (l.setLogFormat v).logFormat = v)
    ∧ (∀ cwd : String,
        (Logger.createInstance cwd).path = pathJoin cwd "logs"
        ∧ (Logger.createInstance cwd).level = LEVEL.info
        ∧ (Logger.createInstance cwd).writeFile = true) :=
  ⟨fun _ _ => rfl, fun _ _ => rfl, fun _ _ => rfl, fun _ _ => rfl,
   fun _ _ => rfl, fun _ => ⟨rfl, rfl, rfl⟩⟩

theorem log_preserves_logger (env : Env) (fl : Faults) (l : Logger)
    (level : LEVEL) (args : List JSValue) (fs : FileSys) :
    (Logger.log env fl l level args fs).logger = l := by
  unfold Logger.log
  split
  · rfl
  · dsimp only
    split <;> rfl

/-- C10: every per-level operation, for any arguments, fault pattern and
file system, and whether or not the call is filtered out, leaves all
five configuration fields of the instance unchanged. -/
theorem c10_ops_preserve_config (env : Env) (fl : Faults) (l : Logger)
    (args : List JSValue) (fs : FileSys) :
    (Logger.debug env fl l args fs).logger = l
    ∧ (Logger.info env fl l args fs).logger = l
    ∧ (Logger.success env fl l args fs).logger = l
    ∧ (Logger.warning env fl l args fs).logger = l
    ∧ (Logger.error env fl l args fs).logger = l
    ∧ (Logger.notice env fl l args fs).logger = l :=
  ⟨log_preserves_logger .., log_preserves_logger ..,
   log_preserves_logger .., log_preserves_logger ..,
   log_preserves_logger .., log_preserves_logger ..⟩

/-- C2: the claim says a rename failure propagates out of the logging
call.  It does not: the try block of `writeLine` wraps `renameSync`
together with `statSync` and `appendFileSync`, so a failing rename lands
in the catch branch, which overwrites `latest.log` via `writeFileSync`.
Concretely, with a day-old `latest.log` holding "old entry" and a
failing rename, the call reports no error (`none`) and the prior
contents are silently replaced by the single new line. -/
theorem c2_rename_failure_swallowed :
    Logger.writeLine wEnv ⟨false, false, true, false, false⟩
      (Logger.createInstance "/app") LEVEL.info "new entry"
      ⟨true, some ⟨0, ["old entry"]⟩, []⟩
      = (⟨true, some ⟨0, ["T0 [ info  ] new entry"]⟩, []⟩, none) := rfl

/-- The stack capture of the double-substitution scenario: frame 0 is the
resolver call site, frame 1 the shared `log`, frame 2 the user call site
`app.js:42:7` in `main`. -/
def c5Trace : List StackFrame :=
  [⟨"resolver.js", 9, "getSync", 1⟩, ⟨"index.js", 8, "log", 2⟩,
   ⟨"app.js", 42, "main", 7⟩]

/-- Environment of the double-substitution scenario. -/
def c5Env : Env :=
  { formatTime := fun _ => "T0"
    nowMs := 0
    traceLog := c5Trace
    traceWrite := c5Trace
    enCADate := fun _ => "1970-01-01" }

/-- A logger whose line format is just the content token, with file
output off (built through the public accessors). -/
def c5Logger : Logger :=
  Logger.setWriteFile
    (Logger.setLogFormat (Logger.createInstance "/app") "{content}") false

/-- The token table this call substitutes: the rendered time, the
colorized level tag, the rendered content (which happens to be the text
"\x7bfileName\x7d"), and the four frame-2 location values. -/
def c5Subst : List (String × String) :=
  [("{time}", "T0"), ("{level}", "\x1b[34m info  \x1b[39m"),
   ("{content}", "{fileName}"), ("{fileName}", "app.js"),
   ("{lineNumber}", "42"), ("{functionName}", "main"),
   ("{columnNumber}", "7")]

/-- C5: the sequential literal replacement has a double-substitution
hazard.  With line format "\x7bcontent\x7d" and the single argument
"\x7bfileName\x7d", the code first substitutes the content and then the
location tokens, so the later `\x7bfileName\x7d` replacement mis-fires
on text that came from the argument: the produced console line is
"app.js", while a correct single-pass substitution of the same token
table over the template leaves "\x7bfileName\x7d" verbatim. -/
theorem c5_double_substitution_hazard :
    (Logger.log c5Env noFaults c5Logger LEVEL.info [JSValue.str "{fileName}"]
        ⟨true, none, []⟩).console
      = [(ConsoleSink.outStream, "app.js")]
    ∧ specSinglePass c5Subst "{content}" = "{fileName}"
    ∧ ("app.js" : String) ≠ "{fileName}" :=
  ⟨rfl, rfl, by decide⟩

/-- C4: with the minimum level configured to L2 and rank(L1) < rank(L2),
calling the L1 per-level operation does nothing: instance, file system,
console and error outcome are all untouched — for every environment and
even with every syscall primed to fail, so the call short-circuits
without attempting any rendering or I/O. -/
theorem c4_filtered_call_is_noop (env : Env) (fl : Faults) (l1 l2 : LEVEL)
    (lg : Logger) (args : List JSValue) (fs : FileSys)
    (hrank : l1.rank < l2.rank) (hmin : lg._level = l2) :
    levelOp l1 env fl lg args fs = ⟨lg, fs, [], none⟩ := by
  have hchk : lg.checkLevel l1 = false := by
    simp only [Logger.checkLevel, hmin, decide_eq_false_iff_not]
    omega
  rw [levelOp_eq]
  unfold Logger.log
  rw [hchk]
  simp

theorem c4_filtered_call_is_noop_witness :
    levelOp LEVEL.debug wEnv noFaults (Logger.createInstance "/cwd") []
      ⟨false, none, []⟩
      = ⟨Logger.createInstance "/cwd", ⟨false, none, []⟩, [], none⟩ :=
  c4_filtered_call_is_noop wEnv noFaults LEVEL.debug LEVEL.info
    (Logger.createInstance "/cwd") [] ⟨false, none, []⟩ (by decide) rfl

/-- C8: for every unfiltered call exactly one console line is produced,
and its sink routes by severity: the error stream for `error`, the
warning stream for `warning`, the standard output stream for `debug`,
`info`, `success` and `notice`. -/
theorem c8_console_dispatch (env : Env) (lg : Logger) (level : LEVEL)
    (args : List JSValue) (fs : FileSys)
    (hlvl : lg.checkLevel level = true) :
    (Logger.log env noFaults lg level args fs).console.map Prod.fst
      = [sinkFor level]
    ∧ sinkFor LEVEL.error = ConsoleSink.errStream
    ∧ sinkFor LEVEL.warning = ConsoleSink.warnStream
    ∧ sinkFor LEVEL.debug = ConsoleSink.outStream
    ∧ sinkFor LEVEL.info = ConsoleSink.outStream
    ∧ sinkFor LEVEL.success = ConsoleSink.outStream
    ∧ sinkFor LEVEL.notice = ConsoleSink.outStream := by
  refine ⟨?_, rfl, rfl, rfl, rfl, rfl, rfl⟩
  rw [log_noFaults_console env lg level args fs hlvl]
  rfl

theorem c8_console_dispatch_witness :
    (Logger.log wEnv noFaults (Logger.createInstance "/cwd") LEVEL.error []
        ⟨true, none, []⟩).console.map Prod.fst = [sinkFor LEVEL.error]
    ∧ sinkFor LEVEL.error = ConsoleSink.errStream
    ∧ sinkFor LEVEL.warning = ConsoleSink.warnStream
    ∧ sinkFor LEVEL.debug = ConsoleSink.outStream
    ∧ sinkFor LEVEL.info = ConsoleSink.outStream
    ∧ sinkFor LEVEL.success = ConsoleSink.outStream
    ∧ sinkFor LEVEL.notice = ConsoleSink.outStream :=
  c8_console_dispatch wEnv (Logger.createInstance "/cwd") LEVEL.error []
    ⟨true, none, []⟩ (by decide)

theorem jsReplace_content_time (t : String) :
    jsReplace "{content}" "{time}" t = "{content}" := rfl

theorem jsReplace_content_level (t : String) :
    jsReplace "{content}" "{level}" t = "{content}" := rfl

theorem jsReplace_content_content (rep : String) :
    jsReplace "{content}" "{content}" rep = rep := by
  show String.mk (rep.data ++ []) = rep
  simp

/-- The argument list of the content rendering example. -/
def c6Args : List JSValue :=
  [JSValue.str "hello", JSValue.num 3, JSValue.str "args"]

/-- C6: the content string joins the per-argument renderings with single
spaces, each non-primitive argument rendered via the structural
`inspect` representation and each primitive via its natural string form;
with line format "\x7bcontent\x7d" the console line is exactly that
content string, and the arguments ("hello", 3, "args") render as
"hello 3 args". -/
theorem c6_content_rendering (env : Env) (lg : Logger) (level : LEVEL)
    (args : List JSValue) (fs : FileSys)
    (hfmt : lg._format = "{content}") (hlvl : lg.checkLevel level = true)
    (htr : env.traceLog = []) :
    (Logger.log env noFaults lg level args fs).console
      = [(sinkFor level, joinSp (parseArgs args))]
    ∧ joinSp (parseArgs args) = String.intercalate " " (args.map renderArgSpec)
    ∧ joinSp (parseArgs c6Args) = "hello 3 args" := by
  refine ⟨?_, ?_, rfl⟩
  · rw [log_noFaults_console env lg level args fs hlvl, hfmt, htr,
      jsReplace_content_time, jsReplace_content_level,
      jsReplace_content_content]
    rfl
  · unfold joinSp
    rw [parseArgs_map]

theorem c6_content_rendering_witness :
    (Logger.log wEnv noFaults
        (Logger.setLogFormat (Logger.createInstance "/cwd") "{content}")
        LEVEL.info c6Args ⟨true, none, []⟩).console
      = [(ConsoleSink.outStream, "hello 3 args")]
    ∧ joinSp (parseArgs c6Args)
      = String.intercalate " " (c6Args.map renderArgSpec)
    ∧ joinSp (parseArgs c6Args) = "hello 3 args" :=
  c6_content_rendering wEnv
    (Logger.setLogFormat (Logger.createInstance "/cwd") "{content}")
    LEVEL.info c6Args ⟨true, none, []⟩ rfl (by decide) rfl

/-- C1: a rotating append against an existing `latest.log`.  When at
least 86 400 000 ms have passed since the file's creation, the old
contents move to `output-<en-CA date of the creation time>.log` and the
fresh `latest.log` (born now) holds only the newly appended line;
otherwise the line is appended to the existing file, whose birth time
and prior lines are kept and no rename happens. -/
theorem c1_rotating_append (env : Env) (l : Logger) (level : LEVEL)
    (line : String) (fs : FileSys) (fd : FileData)
    (hw : l.doWrite = true) (hl : fs.latest = some fd) :
    (86400000 ≤ env.nowMs - fd.birthMs →
      Logger.writeLine env noFaults l level line fs
        = ({ dirExists := true
             latest := some ⟨env.nowMs, [applyTrace env.traceWrite
               (jsReplace (jsReplace (jsReplace l._format
                 "{time}" (Logger.getTime env l))
                 "{level}" (LEVEL_TAG level))
                 "{content}" line)]⟩
             archived := ("output-" ++ env.enCADate fd.birthMs ++ ".log",
               fd.lines) :: fs.archived }, none))
    ∧ (env.nowMs - fd.birthMs < 86400000 →
      Logger.writeLine env noFaults l level line fs
        = ({ dirExists := true
             latest := some ⟨fd.birthMs, fd.lines ++ [applyTrace env.traceWrite
               (jsReplace (jsReplace (jsReplace l._format
                 "{time}" (Logger.getTime env l))
                 "{level}" (LEVEL_TAG level))
                 "{content}" line)]⟩
             archived := fs.archived }, none)) := by
  obtain ⟨d, lat, arch⟩ := fs
  simp only [] at hl
  subst hl
  constructor
  · intro hage
    unfold Logger.writeLine
    rw [hw]
    simp [noFaults, hage]
  · intro hage
    have hnot : ¬ (86400000 ≤ env.nowMs - fd.birthMs) := by omega
    unfold Logger.writeLine
    rw [hw]
    simp [noFaults, hnot]

theorem c1_rotating_append_witness :
    Logger.writeLine wEnv noFaults (Logger.createInstance "/cwd") LEVEL.info
      "x" ⟨true, some ⟨0, ["old"]⟩, []⟩
      = ({ dirExists := true
           latest := some ⟨172800000, ["T0 [ info  ] x"]⟩
           archived := [("output-1970-01-01.log", ["old"])] }, none) :=
  (c1_rotating_append wEnv (Logger.createInstance "/cwd") LEVEL.info "x"
    ⟨true, some ⟨0, ["old"]⟩, []⟩ ⟨0, ["old"]⟩ rfl rfl).1 (by decide)

/-- C3: for both the file variant and the console variant, when the
captured stack has at least 3 frames the four location tokens are
substituted from the frame at index 2, and with fewer than 3 frames the
message is left untouched (token text stays literal); the console line
applies this to the trace captured in `log` and the file line to the
trace captured in `writeLine`. -/
theorem c3_caller_location (msg : String) (f0 f1 f2 : StackFrame)
    (rest trace : List StackFrame) (env : Env) (lg : Logger) (level : LEVEL)
    (args : List JSValue) (fs : FileSys)
    (hshort : trace.length < 3) (hlvl : lg.checkLevel level = true)
    (hw : lg.doWrite = true) (hl : fs.latest = none) :
    applyTrace (f0 :: f1 :: f2 :: rest) msg
      = jsReplace (jsReplace (jsReplace (jsReplace msg
          "{fileName}" f2.fileName)
          "{lineNumber}" (toString f2.lineNumber))
          "{functionName}" f2.functionName)
          "{columnNumber}" (toString f2.columnNumber)
    ∧ applyTrace trace msg = msg
    ∧ (Logger.log env noFaults lg level args fs).console
        = [(sinkFor level, applyTrace env.traceLog
            (jsReplace (jsReplace (jsReplace lg._format
              "{time}" (Logger.getTime env lg))
              "{level}" (LEVEL_COLOR level))
              "{content}" (joinSp (parseArgs args))))]
    ∧ (Logger.writeLine env noFaults lg level (joinSp (parseArgs args))
        fs).1.latest
        = some ⟨env.nowMs, [applyTrace env.traceWrite
            (jsReplace (jsReplace (jsReplace lg._format
              "{time}" (Logger.getTime env lg))
              "{level}" (LEVEL_TAG level))
              "{content}" (joinSp (parseArgs args)))]⟩ := by
  refine ⟨rfl, ?_, log_noFaults_console env lg level args fs hlvl, ?_⟩
  · rcases trace with _ | ⟨a, _ | ⟨b, _ | ⟨c, r⟩⟩⟩
    · rfl
    · rfl
    · rfl
    · simp only [List.length_cons] at hshort
      omega
  · obtain ⟨d, lat, arch⟩ := fs
    simp only [] at hl
    subst hl
    unfold Logger.writeLine
    rw [hw]
    simp [noFaults, catchWrite]

/-- Witness environment with a 3-frame stack capture. -/
def c3wEnv : Env :=
  { formatTime := fun _ => "T0"
    nowMs := 172800000
    traceLog := [⟨"resolver.js", 9, "getSync", 1⟩, ⟨"index.js", 8, "log", 2⟩,
      ⟨"app.js", 42, "main", 7⟩]
    traceWrite := [⟨"resolver.js", 9, "getSync", 1⟩, ⟨"index.js", 8, "log", 2⟩,
      ⟨"app.js", 42, "main", 7⟩]
    enCADate := fun _ => "1970-01-01" }

theorem c3_caller_location_witness :
    applyTrace [⟨"resolver.js", 9, "getSync", 1⟩, ⟨"index.js", 8, "log", 2⟩,
        ⟨"app.js", 42, "main", 7⟩] "{fileName}:{lineNumber}"
      = "app.js:42"
    ∧ applyTrace [] "{fileName}:{lineNumber}" = "{fileName}:{lineNumber}"
    ∧ (Logger.log c3wEnv noFaults (Logger.createInstance "/cwd") LEVEL.info
        [JSValue.str "hi"] ⟨true, none, []⟩).console
      = [(ConsoleSink.outStream, "T0 [\x1b[34m info  \x1b[39m] hi")]
    ∧ (Logger.writeLine c3wEnv noFaults (Logger.createInstance "/cwd")
        LEVEL.info (joinSp (parseArgs [JSValue.str "hi"]))
        ⟨true, none, []⟩).1.latest
      = some ⟨172800000, ["T0 [ info  ] hi"]⟩ :=
  c3_caller_location "{fileName}:{lineNumber}"
    ⟨"resolver.js", 9, "getSync", 1⟩ ⟨"index.js", 8, "log", 2⟩
    ⟨"app.js", 42, "main", 7⟩ [] [] c3wEnv (Logger.createInstance "/cwd")
    LEVEL.info [JSValue.str "hi"] ⟨true, none, []⟩ (by decide) rfl rfl rfl

theorem log_noFaults_err (env : Env) (lg : Logger) (level : LEVEL)
    (args : List JSValue) (fs : FileSys) (hlvl : lg.checkLevel level = true) :
    (Logger.log env noFaults lg level args fs).err = none := by
  unfold Logger.log
  rw [hlvl]
  simp only [Bool.not_true, Bool.false_eq_true, if_false]
  rw [writeLine_noFaults_err]

theorem writeLine_noWrite (env : Env) (fl : Faults) (l : Logger)
    (level : LEVEL) (line : String) (fs : FileSys) (hw : l.doWrite = false) :
    Logger.writeLine env fl l level line fs = (fs, none) := by
  unfold Logger.writeLine
  rw [hw]
  rfl

theorem writeLine_noFaults_totalLines (env : Env) (l : Logger)
    (level : LEVEL) (line : String) (fs : FileSys) (hw : l.doWrite = true) :
    (Logger.writeLine env noFaults l level line fs).1.totalLines
      = fs.totalLines + 1 := by
  obtain ⟨d, lat, arch⟩ := fs
  unfold Logger.writeLine
  rw [hw]
  cases lat with
  | none =>
    simp [noFaults, catchWrite, FileSys.totalLines]
    omega
  | some fd =>
    simp only [noFaults, Bool.and_false, Bool.not_true, Bool.false_eq_true,
      if_false, Bool.not_false, if_true]
    split
    · simp [FileSys.totalLines]
      omega
    · simp [FileSys.totalLines]
      omega

/-- C7: a per-level operation called while the configured minimum level
is that level or lower emits exactly one console line and escapes no
error; with write-to-file enabled exactly one line is added to the log
directory overall, and with it disabled the file system is untouched. -/
theorem c7_exactly_one_line (env : Env) (lg : Logger) (level : LEVEL)
    (args : List JSValue) (fs : FileSys)
    (hlvl : lg._level.rank ≤ level.rank) :
    (levelOp level env noFaults lg args fs).console.length = 1
    ∧ (levelOp level env noFaults lg args fs).err = none
    ∧ (lg.doWrite = true →
        (levelOp level env noFaults lg args fs).fs.totalLines
          = fs.totalLines + 1)
    ∧ (lg.doWrite = false →
        (levelOp level env noFaults lg args fs).fs = fs) := by
  have hchk : lg.checkLevel level = true := by
    simp only [Logger.checkLevel, decide_eq_true_eq]
    omega
  rw [levelOp_eq]
  refine ⟨?_, log_noFaults_err env lg level args fs hchk, ?_, ?_⟩
  · rw [log_noFaults_console env lg level args fs hchk]
    rfl
  · intro hw
    rw [log_noFaults_fs env lg level args fs hchk,
      writeLine_noFaults_totalLines env lg level _ fs hw]
  · intro hw
    rw [log_noFaults_fs env lg level args fs hchk,
      writeLine_noWrite env noFaults lg level _ fs hw]

theorem c7_exactly_one_line_witness :
    (levelOp LEVEL.info wEnv noFaults (Logger.createInstance "/cwd") []
        ⟨true, none, []⟩).console.length = 1
    ∧ (levelOp LEVEL.info wEnv noFaults (Logger.createInstance "/cwd") []
        ⟨true, none, []⟩).err = none
    ∧ (levelOp LEVEL.info wEnv noFaults (Logger.createInstance "/cwd") []
        ⟨true, none, []⟩).fs.totalLines
      = FileSys.totalLines ⟨true, none, []⟩ + 1 :=
  ⟨(c7_exactly_one_line wEnv (Logger.createInstance "/cwd") LEVEL.info []
      ⟨true, none, []⟩ (by decide)).1,
   (c7_exactly_one_line wEnv (Logger.createInstance "/cwd") LEVEL.info []
      ⟨true, none, []⟩ (by decide)).2.1,
   (c7_exactly_one_line wEnv (Logger.createInstance "/cwd") LEVEL.info []
      ⟨true, none, []⟩ (by decide)).2.2.1 rfl⟩
